import Mathlib

/-!
Shallow embedding of the upload-listing handler `userUploadsGet` from
`packages/api/src/user.js` of the web3.storage repository, together with
theorems settling the pagination, validation and link-header claims of the
specification.

The handler parses query parameters (`size`, `offset`, `before`, `after`,
`sortBy`, `sortOrder`) from the request URL, validates them, queries the
upload store (`env.db.listUploads`) and shapes a response with `Count`,
`Size`, `Offset` headers and optional `Next_link` / `Prev_link` headers.

External collaborators are modelled as function parameters: the upload
store is `listUploads : ListUploadsQuery → ListUploadsResult`, and the
platform date facility (`new Date(s)` followed by `.toISOString()`) is
`jsDateToISO : String → Option String`, returning `none` exactly when
`isNaN(new Date(s).getTime())` holds in JavaScript.
-/

namespace UserApi

/-- Whitespace characters stripped by JavaScript's `parseInt` before
parsing (the ASCII members of ECMAScript WhiteSpace / LineTerminator,
plus NBSP and the BOM). -/
def isJsSpace (c : Char) : Bool :=
  c = ' ' || c = '\t' || c = '\n' || c = '\r' || c = '\x0b' || c = '\x0c' ||
  c = '\xa0' || c = '\uFEFF'

/-- Numeric value of a digit character, in any radix up to 36
(`0`-`9`, `a`-`z`, `A`-`Z`), as used by `parseInt`. -/
def digitVal (c : Char) : Option Nat :=
  if '0' ≤ c ∧ c ≤ '9' then some (c.toNat - '0'.toNat)
  else if 'a' ≤ c ∧ c ≤ 'z' then some (c.toNat - 'a'.toNat + 10)
  else if 'A' ≤ c ∧ c ≤ 'Z' then some (c.toNat - 'A'.toNat + 10)
  else none

/-- Parse the longest prefix of digits valid in `radix`; `none` when no
digit at all was consumed (`seen = false` at the end). -/
def parseDigits (radix : Nat) : List Char → Nat → Bool → Option Nat
  | [], acc, seen => if seen then some acc else none
  | c :: rest, acc, seen =>
    match digitVal c with
    | some v =>
      if v < radix then parseDigits radix rest (acc * radix + v) true
      else if seen then some acc else none
    | none => if seen then some acc else none

/-- JavaScript `parseInt(s)` with the radix argument omitted: strip
leading whitespace, take an optional sign, recognise a `0x`/`0X` prefix
as hexadecimal, then parse the longest valid digit prefix; `none` models
`NaN`. -/
def parseIntJS (s : String) : Option Int :=
  let cs := s.data.dropWhile (fun c => isJsSpace c)
  let signed : Int × List Char :=
    match cs with
    | '-' :: rest => (-1, rest)
    | '+' :: rest => (1, rest)
    | _ => (1, cs)
  let based : Nat × List Char :=
    match signed.2 with
    | '0' :: 'x' :: rest => (16, rest)
    | '0' :: 'X' :: rest => (16, rest)
    | _ => (10, signed.2)
  match parseDigits based.1 based.2 0 false with
  | some n => some (signed.1 * (n : Int))
  | none => none

/-- UTF-8 byte values of a character, for percent-encoding. -/
def utf8Bytes (c : Char) : List Nat :=
  let n := c.toNat
  if n < 0x80 then [n]
  else if n < 0x800 then [0xC0 + n / 64, 0x80 + n % 64]
  else if n < 0x10000 then [0xE0 + n / 4096, 0x80 + (n / 64) % 64, 0x80 + n % 64]
  else [0xF0 + n / 262144, 0x80 + (n / 4096) % 64, 0x80 + (n / 64) % 64, 0x80 + n % 64]

/-- Upper-case hexadecimal digit. -/
def hexDigit (n : Nat) : Char :=
  if n < 10 then Char.ofNat ('0'.toNat + n) else Char.ofNat ('A'.toNat + n - 10)

/-- Characters `encodeURIComponent` leaves unescaped:
`A-Z a-z 0-9 - _ . ! ~ * ' ( )`. -/
def isUriUnescaped (c : Char) : Bool :=
  (('A' ≤ c ∧ c ≤ 'Z') ∨ ('a' ≤ c ∧ c ≤ 'z') ∨ ('0' ≤ c ∧ c ≤ '9') ∨
    c = '-' ∨ c = '_' ∨ c = '.' ∨ c = '!' ∨ c = '~' ∨ c = '*' ∨
    c = '\x27' ∨ c = '(' ∨ c = ')')

/-- JavaScript `encodeURIComponent`: unescaped characters pass through,
everything else is percent-encoded per UTF-8 byte. -/
def encodeURIComponent (s : String) : String :=
  s.data.foldl
    (fun acc c =>
      if isUriUnescaped c then acc.push c
      else acc ++ String.join
        ((utf8Bytes c).map
          (fun b => "%" ++ String.singleton (hexDigit (b / 16)) ++
            String.singleton (hexDigit (b % 16)))))
    ""

/-- The error thrown by the handler:
`Object.assign(new Error(message), { status })`. -/
structure ApiError where
  message : String
  status : Nat
deriving Repr, DecidableEq

/-- The query-parameter view of the inbound request:
`searchParams.has(k)` is `≠ none`, `searchParams.get(k)` the contained
(decoded) string; `pathname` is `requestUrl.pathname`. -/
structure UploadsRequest where
  pathname : String
  sizeParam : Option String
  offsetParam : Option String
  beforeParam : Option String
  afterParam : Option String
  sortByParam : Option String
  sortOrderParam : Option String
deriving Repr, DecidableEq

/-- The options object passed to `env.db.listUploads`. -/
structure ListUploadsQuery where
  size : Int
  offset : Int
  before : Option String
  after : Option String
  sortBy : String
  sortOrder : String
deriving Repr, DecidableEq

/-- The store's answer `{ uploads, count }`; upload records are opaque. -/
structure ListUploadsResult where
  uploads : List String
  count : Int
deriving Repr, DecidableEq

/-- The shaped response: the serialized uploads and the headers object
(`Count`, `Size`, `Offset`, optional `Next_link` / `Prev_link`). -/
structure UploadsResponse where
  body : List String
  Count : Int
  Size : Int
  Offset : Int
  Next_link : Option String
  Prev_link : Option String
deriving Repr, DecidableEq

/-- `searchParams.get(k) || dflt`: absent (`null`) and the empty string
are falsy. -/
def orDefault (p : Option String) (dflt : String) : String :=
  match p with
  | some s => if s = "" then dflt else s
  | none => dflt

/-- Lines 181-188 of `user.js`: `size` defaults to 25; when present it is
`parseInt`-ed and rejected with `invalid page size` (status 400) when
`NaN`, `<= 0` or `> 1000`. -/
def validateSize (p : Option String) : Except ApiError Int :=
  match p with
  | none => .ok 25
  | some s =>
    match parseIntJS s with
    | none => .error ⟨"invalid page size", 400⟩
    | some n =>
      if n ≤ 0 ∨ n > 1000 then .error ⟨"invalid page size", 400⟩ else .ok n

/-- Lines 190-197 of `user.js`: `offset` defaults to 0; when present it is
`parseInt`-ed and rejected with `invalid page offset` (status 400) when
`NaN`, `<= 0` or `> 1000`. -/
def validateOffset (p : Option String) : Except ApiError Int :=
  match p with
  | none => .ok 0
  | some s =>
    match parseIntJS s with
    | none => .error ⟨"invalid page offset", 400⟩
    | some n =>
      if n ≤ 0 ∨ n > 1000 then .error ⟨"invalid page offset", 400⟩ else .ok n

/-- Lines 199-215 of `user.js` (one of the two date parameters): when
present, `new Date(s)` must be valid, and the ISO-normalized string is
kept; otherwise the given 400 error is thrown. -/
def validateDateParam (message : String) (jsDateToISO : String → Option String)
    (p : Option String) : Except ApiError (Option String) :=
  match p with
  | none => .ok none
  | some s =>
    match jsDateToISO s with
    | none => .error ⟨message, 400⟩
    | some iso => .ok (some iso)

/-- Lines 181-219 of `user.js`: sequential validation, in source order
(`size`, `offset`, `before`, `after`), producing the options object for
`env.db.listUploads`; `sortBy` / `sortOrder` take `|| 'Date'` /
`|| 'Desc'` defaults with no further validation. -/
def validateParams (jsDateToISO : String → Option String) (req : UploadsRequest) :
    Except ApiError ListUploadsQuery :=
  match validateSize req.sizeParam with
  | .error e => .error e
  | .ok size =>
    match validateOffset req.offsetParam with
    | .error e => .error e
    | .ok offset =>
      match validateDateParam "invalid before date" jsDateToISO req.beforeParam with
      | .error e => .error e
      | .ok before =>
        match validateDateParam "invalid after date" jsDateToISO req.afterParam with
        | .error e => .error e
        | .ok after =>
          .ok { size := size, offset := offset, before := before, after := after,
                sortBy := orDefault req.sortByParam "Date",
                sortOrder := orDefault req.sortOrderParam "Desc" }

/-- One pagination link header value, as built inline at lines 237 and
242 of `user.js`:
`` `<${pathname}?size=${size}&offset=${encodeURIComponent(o)}>; rel="next"` ``
(the template interpolates numbers via their decimal string). -/
def linkHeader (pathname : String) (size : Int) (o : Int) : String :=
  "<" ++ pathname ++ "?size=" ++ toString size ++ "&offset=" ++
    encodeURIComponent (toString o) ++ ">; rel=\"next\""

/-- Lines 229-245 of `user.js`: headers carry `Count`, `Size`, `Offset`;
`Next_link` is added when `data.uploads.length + offset < data.count`
(pointing to `offset + size`), `Prev_link` when `offset` is truthy
(pointing to `offset - size`); the body is `data.uploads`. -/
def buildResponse (pathname : String) (size offset : Int)
    (data : ListUploadsResult) : UploadsResponse :=
  let base : UploadsResponse :=
    { body := data.uploads, Count := data.count, Size := size, Offset := offset,
      Next_link := none, Prev_link := none }
  let withNext : UploadsResponse :=
    if (data.uploads.length : Int) + offset < data.count then
      { base with Next_link := some (linkHeader pathname size (offset + size)) }
    else base
  if offset ≠ 0 then
    { withNext with Prev_link := some (linkHeader pathname size (offset - size)) }
  else withNext

/-- The whole handler `userUploadsGet` (lines 176-246 of `user.js`): the
sequential parameter validation, the single store call with the validated
options, and the response shaping. A thrown validation error is the
`Except.error` branch. -/
def userUploadsGet (jsDateToISO : String → Option String)
    (listUploads : ListUploadsQuery → ListUploadsResult)
    (req : UploadsRequest) : Except ApiError UploadsResponse :=
  match validateParams jsDateToISO req with
  | .error e => .error e
  | .ok q => .ok (buildResponse req.pathname q.size q.offset (listUploads q))

/-- A concrete stand-in for the platform date facility, used to
instantiate witnesses: it recognises a single date string and returns its
ISO normalization. -/
def demoDateToISO (s : String) : Option String :=
  if s = "Jan 5 2021" then some "2021-01-05T00:00:00.000Z" else none

/-! ### Helper lemmas about the validators and the response shaping -/

theorem validateSize_error_eq (p : Option String) (e : ApiError)
    (h : validateSize p = .error e) : e = ⟨"invalid page size", 400⟩ := by
  unfold validateSize at h
  split at h
  · cases h
  · split at h
    · cases h; rfl
    · split at h
      · cases h; rfl
      · cases h

theorem validateOffset_error_eq (p : Option String) (e : ApiError)
    (h : validateOffset p = .error e) : e = ⟨"invalid page offset", 400⟩ := by
  unfold validateOffset at h
  split at h
  · cases h
  · split at h
    · cases h; rfl
    · split at h
      · cases h; rfl
      · cases h

theorem validateDateParam_error_eq (msg : String) (jsD : String → Option String)
    (p : Option String) (e : ApiError)
    (h : validateDateParam msg jsD p = .error e) : e = ⟨msg, 400⟩ := by
  unfold validateDateParam at h
  split at h
  · cases h
  · split at h
    · cases h; rfl
    · cases h

theorem vp_of_size_error (jsD : String → Option String) (req : UploadsRequest)
    (e : ApiError) (h : validateSize req.sizeParam = .error e) :
    validateParams jsD req = .error e := by
  unfold validateParams
  simp only [h]

theorem vp_of_offset_error (jsD : String → Option String) (req : UploadsRequest)
    (n : Int) (e : ApiError) (hs : validateSize req.sizeParam = .ok n)
    (h : validateOffset req.offsetParam = .error e) :
    validateParams jsD req = .error e := by
  unfold validateParams
  simp only [hs, h]

theorem vp_of_before_error (jsD : String → Option String) (req : UploadsRequest)
    (n m : Int) (e : ApiError) (hs : validateSize req.sizeParam = .ok n)
    (ho : validateOffset req.offsetParam = .ok m)
    (h : validateDateParam "invalid before date" jsD req.beforeParam = .error e) :
    validateParams jsD req = .error e := by
  unfold validateParams
  simp only [hs, ho, h]

theorem vp_of_after_error (jsD : String → Option String) (req : UploadsRequest)
    (n m : Int) (b : Option String) (e : ApiError)
    (hs : validateSize req.sizeParam = .ok n)
    (ho : validateOffset req.offsetParam = .ok m)
    (hb : validateDateParam "invalid before date" jsD req.beforeParam = .ok b)
    (h : validateDateParam "invalid after date" jsD req.afterParam = .error e) :
    validateParams jsD req = .error e := by
  unfold validateParams
  simp only [hs, ho, hb, h]

theorem vp_ok_parts (jsD : String → Option String) (req : UploadsRequest)
    (q : ListUploadsQuery) (h : validateParams jsD req = .ok q) :
    validateSize req.sizeParam = .ok q.size ∧
    validateOffset req.offsetParam = .ok q.offset ∧
    validateDateParam "invalid before date" jsD req.beforeParam = .ok q.before ∧
    validateDateParam "invalid after date" jsD req.afterParam = .ok q.after ∧
    q.sortBy = orDefault req.sortByParam "Date" ∧
    q.sortOrder = orDefault req.sortOrderParam "Desc" := by
  unfold validateParams at h
  cases hs : validateSize req.sizeParam with
  | error e => rw [hs] at h; cases h
  | ok size =>
    rw [hs] at h
    cases ho : validateOffset req.offsetParam with
    | error e => rw [ho] at h; cases h
    | ok offset =>
      rw [ho] at h
      cases hb : validateDateParam "invalid before date" jsD req.beforeParam with
      | error e => rw [hb] at h; cases h
      | ok before =>
        rw [hb] at h
        cases ha : validateDateParam "invalid after date" jsD req.afterParam with
        | error e => rw [ha] at h; cases h
        | ok after =>
          rw [ha] at h
          cases h
          exact ⟨rfl, rfl, rfl, rfl, rfl, rfl⟩

theorem validateParams_error_status (jsD : String → Option String)
    (req : UploadsRequest) (e : ApiError)
    (h : validateParams jsD req = .error e) : e.status = 400 := by
  unfold validateParams at h
  split at h
  · cases h
    rename_i heq
    rw [validateSize_error_eq _ _ heq]
  · split at h
    · cases h
      rename_i heq
      rw [validateOffset_error_eq _ _ heq]
    · split at h
      · cases h
        rename_i heq
        rw [validateDateParam_error_eq _ _ _ _ heq]
      · split at h
        · cases h
          rename_i heq
          rw [validateDateParam_error_eq _ _ _ _ heq]
        · cases h

theorem userUploadsGet_ok_eq (jsD : String → Option String)
    (f : ListUploadsQuery → ListUploadsResult) (req : UploadsRequest)
    (q : ListUploadsQuery) (hq : validateParams jsD req = .ok q) :
    userUploadsGet jsD f req = .ok (buildResponse req.pathname q.size q.offset (f q)) := by
  unfold userUploadsGet
  simp only [hq]

theorem userUploadsGet_error_eq (jsD : String → Option String)
    (f : ListUploadsQuery → ListUploadsResult) (req : UploadsRequest)
    (e : ApiError) (he : validateParams jsD req = .error e) :
    userUploadsGet jsD f req = .error e := by
  unfold userUploadsGet
  simp only [he]

theorem buildResponse_Next_link (pathname : String) (size offset : Int)
    (data : ListUploadsResult) :
    (buildResponse pathname size offset data).Next_link =
      if (data.uploads.length : Int) + offset < data.count then
        some (linkHeader pathname size (offset + size))
      else none := by
  unfold buildResponse
  split <;> split <;> rfl

theorem buildResponse_Prev_link (pathname : String) (size offset : Int)
    (data : ListUploadsResult) :
    (buildResponse pathname size offset data).Prev_link =
      if offset ≠ 0 then some (linkHeader pathname size (offset - size))
      else none := by
  unfold buildResponse
  split <;> split <;> rfl

/-- Observer: the `status` property of the thrown error, `none` on a
successful response. -/
def errorStatus {α : Type} : Except ApiError α → Option Nat
  | .error e => some e.status
  | .ok _ => none

theorem errorStatus_of_vp_error (jsD : String → Option String)
    (f : ListUploadsQuery → ListUploadsResult) (req : UploadsRequest)
    (e : ApiError) (h : validateParams jsD req = .error e) :
    errorStatus (userUploadsGet jsD f req) = some 400 := by
  rw [userUploadsGet_error_eq jsD f req e h]
  simp only [errorStatus]
  rw [validateParams_error_status jsD req e h]

/-! ### Concrete fixtures used by the witnesses -/

/-- A request with no query parameters at all. -/
def reqBasic : UploadsRequest := ⟨"/user/uploads", none, none, none, none, none, none⟩

/-- The query `reqBasic` validates to: all defaults. -/
def queryBasic : ListUploadsQuery := ⟨25, 0, none, none, "Date", "Desc"⟩

/-- A store holding 30 matching rows, returning a 25-row page. -/
def storeBasic : ListUploadsQuery → ListUploadsResult :=
  fun _ => ⟨List.replicate 25 "bafy", 30⟩

/-- A request with `offset=10` and default size. -/
def reqOffset10 : UploadsRequest :=
  ⟨"/user/uploads", none, some "10", none, none, none, none⟩

/-- The query `reqOffset10` validates to. -/
def queryOffset10 : ListUploadsQuery := ⟨25, 10, none, none, "Date", "Desc"⟩

/-! ### The claims -/

/-- C1: for every successful store result, a `Next_link` header is emitted
iff `offset + uploads.length < count`, and when emitted it points to
`offset + size` with the same `size`. -/
theorem userUploadsGet_next_link (jsD : String → Option String)
    (f : ListUploadsQuery → ListUploadsResult) (req : UploadsRequest)
    (q : ListUploadsQuery) (r : UploadsResponse)
    (hq : validateParams jsD req = .ok q)
    (hr : userUploadsGet jsD f req = .ok r) :
    r.Next_link =
      if ((f q).uploads.length : Int) + q.offset < (f q).count then
        some (linkHeader req.pathname q.size (q.offset + q.size))
      else none := by
  rw [userUploadsGet_ok_eq jsD f req q hq] at hr
  injection hr with hr
  rw [← hr, buildResponse_Next_link]

/-- Witness for C1 at the spec's worked example: no parameters, a store
with 30 rows answering a 25-row page; the next link points to offset 25. -/
theorem userUploadsGet_next_link_witness :
    (buildResponse reqBasic.pathname queryBasic.size queryBasic.offset
        (storeBasic queryBasic)).Next_link =
      if ((storeBasic queryBasic).uploads.length : Int) + queryBasic.offset <
          (storeBasic queryBasic).count then
        some (linkHeader reqBasic.pathname queryBasic.size
          (queryBasic.offset + queryBasic.size))
      else none :=
  userUploadsGet_next_link demoDateToISO storeBasic reqBasic queryBasic _ rfl rfl

/-- C2: for every successful store result, a `Prev_link` header is emitted
iff the effective offset is truthy (non-zero), and when emitted it points
to `offset - size`, which is negative whenever `offset < size`. -/
theorem userUploadsGet_prev_link (jsD : String → Option String)
    (f : ListUploadsQuery → ListUploadsResult) (req : UploadsRequest)
    (q : ListUploadsQuery) (r : UploadsResponse)
    (hq : validateParams jsD req = .ok q)
    (hr : userUploadsGet jsD f req = .ok r) :
    r.Prev_link =
      (if q.offset ≠ 0 then some (linkHeader req.pathname q.size (q.offset - q.size))
       else none) ∧
    (q.offset ≠ 0 → q.offset < q.size → q.offset - q.size < 0) := by
  rw [userUploadsGet_ok_eq jsD f req q hq] at hr
  injection hr with hr
  constructor
  · rw [← hr, buildResponse_Prev_link]
  · intro _ hlt
    omega

/-- Witness for C2 at `offset=10`, default `size=25`: a prev link is
emitted, pointing to the negative offset `-15`. -/
theorem userUploadsGet_prev_link_witness :
    ((buildResponse reqOffset10.pathname queryOffset10.size queryOffset10.offset
        (storeBasic queryOffset10)).Prev_link =
      (if queryOffset10.offset ≠ 0 then
        some (linkHeader reqOffset10.pathname queryOffset10.size
          (queryOffset10.offset - queryOffset10.size))
       else none)) ∧
    (queryOffset10.offset ≠ 0 → queryOffset10.offset < queryOffset10.size →
      queryOffset10.offset - queryOffset10.size < 0) :=
  userUploadsGet_prev_link demoDateToISO storeBasic reqOffset10 queryOffset10 _ rfl rfl

/-- C3: when the `offset` query parameter is present, the call fails with
status 400 if `parseInt` gives `NaN`, a value `≤ 0` (so an explicit
`offset=0` is rejected) or a value `> 1000`; when absent, the offset
validator yields the default 0 without error, and the effective offset of
any accepted request is 0. -/
theorem userUploadsGet_offset_validation (jsD : String → Option String)
    (f : ListUploadsQuery → ListUploadsResult) (req : UploadsRequest) :
    (∀ s, req.offsetParam = some s →
       (parseIntJS s = none ∨ ∃ n, parseIntJS s = some n ∧ (n ≤ 0 ∨ n > 1000)) →
       errorStatus (userUploadsGet jsD f req) = some 400) ∧
    (req.offsetParam = none →
       validateOffset req.offsetParam = .ok 0 ∧
       ∀ q, validateParams jsD req = .ok q → q.offset = 0) := by
  constructor
  · intro s hs hbad
    have hoff : validateOffset req.offsetParam = .error ⟨"invalid page offset", 400⟩ := by
      rw [hs]
      rcases hbad with h | ⟨n, hn, hrange⟩
      · simp only [validateOffset, h]
      · simp only [validateOffset, hn, if_pos hrange]
    cases hsz : validateSize req.sizeParam with
    | error e =>
      exact errorStatus_of_vp_error jsD f req e (vp_of_size_error jsD req e hsz)
    | ok n =>
      exact errorStatus_of_vp_error jsD f req _ (vp_of_offset_error jsD req n _ hsz hoff)
  · intro habs
    refine ⟨by rw [habs]; rfl, ?_⟩
    intro q hq
    have h := (vp_ok_parts jsD req q hq).2.1
    rw [habs] at h
    injection h with h
    exact h.symm

/-- A request explicitly supplying `offset=0`. -/
def reqOffsetZero : UploadsRequest :=
  ⟨"/user/uploads", none, some "0", none, none, none, none⟩

/-- Witness for C3: an explicit `offset=0` is rejected with status 400. -/
theorem userUploadsGet_offset_validation_witness :
    errorStatus (userUploadsGet demoDateToISO storeBasic reqOffsetZero) = some 400 :=
  (userUploadsGet_offset_validation demoDateToISO storeBasic reqOffsetZero).1 "0" rfl
    (Or.inr ⟨0, rfl, Or.inl (by decide)⟩)

/-- C4: when the `size` query parameter is present, the call fails with
status 400 if `parseInt` gives `NaN`, a value `≤ 0` or a value `> 1000`;
when absent, the size validator yields the default 25 without error, and
the effective size of any accepted request is 25. -/
theorem userUploadsGet_size_validation (jsD : String → Option String)
    (f : ListUploadsQuery → ListUploadsResult) (req : UploadsRequest) :
    (∀ s, req.sizeParam = some s →
       (parseIntJS s = none ∨ ∃ n, parseIntJS s = some n ∧ (n ≤ 0 ∨ n > 1000)) →
       errorStatus (userUploadsGet jsD f req) = some 400) ∧
    (req.sizeParam = none →
       validateSize req.sizeParam = .ok 25 ∧
       ∀ q, validateParams jsD req = .ok q → q.size = 25) := by
  constructor
  · intro s hs hbad
    have hsz : validateSize req.sizeParam = .error ⟨"invalid page size", 400⟩ := by
      rw [hs]
      rcases hbad with h | ⟨n, hn, hrange⟩
      · simp only [validateSize, h]
      · simp only [validateSize, hn, if_pos hrange]
    exact errorStatus_of_vp_error jsD f req _ (vp_of_size_error jsD req _ hsz)
  · intro habs
    refine ⟨by rw [habs]; rfl, ?_⟩
    intro q hq
    have h := (vp_ok_parts jsD req q hq).1
    rw [habs] at h
    injection h with h
    exact h.symm

/-- A request supplying an out-of-range `size=1001`. -/
def reqSize1001 : UploadsRequest :=
  ⟨"/user/uploads", some "1001", none, none, none, none, none⟩

/-- Witness for C4: `size=1001` is rejected with status 400. -/
theorem userUploadsGet_size_validation_witness :
    errorStatus (userUploadsGet demoDateToISO storeBasic reqSize1001) = some 400 :=
  (userUploadsGet_size_validation demoDateToISO storeBasic reqSize1001).1 "1001" rfl
    (Or.inr ⟨1001, rfl, Or.inr (by decide)⟩)

/-- C5: validation runs in the order `size`, `offset`, `before`, `after`,
the first failure determining the thrown error; and on any validation
failure the handler's result is that error for every store whatsoever —
the store is never queried. -/
theorem userUploadsGet_validation_order (jsD : String → Option String)
    (req : UploadsRequest) :
    (∀ e, validateParams jsD req = .error e →
       ∀ f, userUploadsGet jsD f req = .error e) ∧
    (∀ e, validateSize req.sizeParam = .error e →
       validateParams jsD req = .error e) ∧
    (∀ n e, validateSize req.sizeParam = .ok n →
       validateOffset req.offsetParam = .error e →
       validateParams jsD req = .error e) ∧
    (∀ n m e, validateSize req.sizeParam = .ok n →
       validateOffset req.offsetParam = .ok m →
       validateDateParam "invalid before date" jsD req.beforeParam = .error e →
       validateParams jsD req = .error e) ∧
    (∀ n m b e, validateSize req.sizeParam = .ok n →
       validateOffset req.offsetParam = .ok m →
       validateDateParam "invalid before date" jsD req.beforeParam = .ok b →
       validateDateParam "invalid after date" jsD req.afterParam = .error e →
       validateParams jsD req = .error e) := by
  refine ⟨?_, ?_, ?_, ?_, ?_⟩
  · intro e he f
    exact userUploadsGet_error_eq jsD f req e he
  · intro e h
    exact vp_of_size_error jsD req e h
  · intro n e hs h
    exact vp_of_offset_error jsD req n e hs h
  · intro n m e hs ho h
    exact vp_of_before_error jsD req n m e hs ho h
  · intro n m b e hs ho hb h
    exact vp_of_after_error jsD req n m b e hs ho hb h

/-- A request in which every one of `size`, `offset` and `before` is
invalid. -/
def reqAllBad : UploadsRequest :=
  ⟨"/user/uploads", some "abc", some "0", some "not-a-date", none, none, none⟩

/-- Witness for C5: with `size`, `offset` and `before` all invalid, the
size error wins and the result ignores the store. -/
theorem userUploadsGet_validation_order_witness :
    userUploadsGet demoDateToISO storeBasic reqAllBad =
      .error ⟨"invalid page size", 400⟩ :=
  (userUploadsGet_validation_order demoDateToISO reqAllBad).1 ⟨"invalid page size", 400⟩
    ((userUploadsGet_validation_order demoDateToISO reqAllBad).2.1
      ⟨"invalid page size", 400⟩ rfl) storeBasic

/-- C6: every emitted pagination link — the next link and the prev link
alike — has the exact shape `<path?size=S&offset=O>; rel="next"`: in
particular the prev link also carries `rel="next"`. -/
theorem userUploadsGet_link_format (jsD : String → Option String)
    (f : ListUploadsQuery → ListUploadsResult) (req : UploadsRequest)
    (q : ListUploadsQuery) (r : UploadsResponse)
    (hq : validateParams jsD req = .ok q)
    (hr : userUploadsGet jsD f req = .ok r) :
    (∀ l, r.Next_link = some l →
       l = "<" ++ req.pathname ++ "?size=" ++ toString q.size ++ "&offset=" ++
         encodeURIComponent (toString (q.offset + q.size)) ++ ">; rel=\"next\"") ∧
    (∀ l, r.Prev_link = some l →
       l = "<" ++ req.pathname ++ "?size=" ++ toString q.size ++ "&offset=" ++
         encodeURIComponent (toString (q.offset - q.size)) ++ ">; rel=\"next\"") := by
  rw [userUploadsGet_ok_eq jsD f req q hq] at hr
  injection hr with hr
  constructor
  · intro l hl
    rw [← hr, buildResponse_Next_link] at hl
    split at hl
    · injection hl with hl
      rw [← hl]
      rfl
    · cases hl
  · intro l hl
    rw [← hr, buildResponse_Prev_link] at hl
    split at hl
    · injection hl with hl
      rw [← hl]
      rfl
    · cases hl

/-- Witness for C6 at `offset=10`, `size=25`: the emitted prev link has
the `<path?size=S&offset=O>; rel="next"` shape, `rel="next"` included. -/
theorem userUploadsGet_link_format_witness :
    linkHeader reqOffset10.pathname queryOffset10.size
        (queryOffset10.offset - queryOffset10.size) =
      "<" ++ reqOffset10.pathname ++ "?size=" ++ toString queryOffset10.size ++
        "&offset=" ++ encodeURIComponent
          (toString (queryOffset10.offset - queryOffset10.size)) ++ ">; rel=\"next\"" :=
  (userUploadsGet_link_format demoDateToISO storeBasic reqOffset10 queryOffset10 _
    rfl rfl).2 _ rfl

/-- C7: a present `before` (resp. `after`) parameter whose value the
platform date facility cannot parse makes the call fail with status 400;
on success the value handed to the store is the ISO-normalized timestamp
produced by that facility, not the raw input. -/
theorem userUploadsGet_date_validation (jsD : String → Option String)
    (f : ListUploadsQuery → ListUploadsResult) (req : UploadsRequest) :
    (∀ s, req.beforeParam = some s → jsD s = none →
       errorStatus (userUploadsGet jsD f req) = some 400) ∧
    (∀ s, req.afterParam = some s → jsD s = none →
       errorStatus (userUploadsGet jsD f req) = some 400) ∧
    (∀ q, validateParams jsD req = .ok q →
       (∀ s, req.beforeParam = some s → q.before = jsD s) ∧
       (∀ s, req.afterParam = some s → q.after = jsD s)) := by
  refine ⟨?_, ?_, ?_⟩
  · intro s hs hbad
    cases hsz : validateSize req.sizeParam with
    | error e =>
      exact errorStatus_of_vp_error jsD f req e (vp_of_size_error jsD req e hsz)
    | ok n =>
      cases ho : validateOffset req.offsetParam with
      | error e =>
        exact errorStatus_of_vp_error jsD f req e (vp_of_offset_error jsD req n e hsz ho)
      | ok m =>
        have hb : validateDateParam "invalid before date" jsD req.beforeParam =
            .error ⟨"invalid before date", 400⟩ := by
          rw [hs]
          simp only [validateDateParam, hbad]
        exact errorStatus_of_vp_error jsD f req _
          (vp_of_before_error jsD req n m _ hsz ho hb)
  · intro s hs hbad
    cases hsz : validateSize req.sizeParam with
    | error e =>
      exact errorStatus_of_vp_error jsD f req e (vp_of_size_error jsD req e hsz)
    | ok n =>
      cases ho : validateOffset req.offsetParam with
      | error e =>
        exact errorStatus_of_vp_error jsD f req e (vp_of_offset_error jsD req n e hsz ho)
      | ok m =>
        cases hbf : validateDateParam "invalid before date" jsD req.beforeParam with
        | error e =>
          exact errorStatus_of_vp_error jsD f req e
            (vp_of_before_error jsD req n m e hsz ho hbf)
        | ok b =>
          have ha : validateDateParam "invalid after date" jsD req.afterParam =
              .error ⟨"invalid after date", 400⟩ := by
            rw [hs]
            simp only [validateDateParam, hbad]
          exact errorStatus_of_vp_error jsD f req _
            (vp_of_after_error jsD req n m b _ hsz ho hbf ha)
  · intro q hq
    constructor
    · intro s hs
      have h := (vp_ok_parts jsD req q hq).2.2.1
      rw [hs] at h
      cases hj : jsD s with
      | none =>
        simp only [validateDateParam, hj] at h
        cases h
      | some iso =>
        simp only [validateDateParam, hj] at h
        injection h with h
        exact h.symm
    · intro s hs
      have h := (vp_ok_parts jsD req q hq).2.2.2.1
      rw [hs] at h
      cases hj : jsD s with
      | none =>
        simp only [validateDateParam, hj] at h
        cases h
      | some iso =>
        simp only [validateDateParam, hj] at h
        injection h with h
        exact h.symm

/-- A request filtering with a parsable `before` date. -/
def reqBefore : UploadsRequest :=
  ⟨"/user/uploads", none, none, some "Jan 5 2021", none, none, none⟩

/-- The query `reqBefore` validates to under `demoDateToISO`: the `before`
value is the ISO normalization of the raw parameter. -/
def queryBefore : ListUploadsQuery :=
  ⟨25, 0, some "2021-01-05T00:00:00.000Z", none, "Date", "Desc"⟩

/-- A request with an unparsable `before` date. -/
def reqBadBefore : UploadsRequest :=
  ⟨"/user/uploads", none, none, some "not-a-date", none, none, none⟩

/-- Witness for C7: the store sees the ISO-normalized `before` value, and
an unparsable `before` is rejected with status 400. -/
theorem userUploadsGet_date_validation_witness :
    queryBefore.before = demoDateToISO "Jan 5 2021" ∧
    errorStatus (userUploadsGet demoDateToISO storeBasic reqBadBefore) = some 400 :=
  ⟨((userUploadsGet_date_validation demoDateToISO storeBasic reqBefore).2.2
      queryBefore rfl).1 "Jan 5 2021" rfl,
   (userUploadsGet_date_validation demoDateToISO storeBasic reqBadBefore).1
      "not-a-date" rfl rfl⟩

/-- A valid request for the second page of a 1000-sized listing. -/
def reqPage2 : UploadsRequest :=
  ⟨"/user/uploads", some "1000", some "1000", none, none, none, none⟩

/-- The same request with the offset the emitted next link advertises. -/
def reqPage3 : UploadsRequest :=
  ⟨"/user/uploads", some "1000", some "2000", none, none, none, none⟩

/-- A store with 5000 matching rows answering a full 1000-row page. -/
def storeLarge : ListUploadsQuery → ListUploadsResult :=
  fun _ => ⟨List.replicate 1000 "bafy", 5000⟩

/-- C8: the accepted request `size=1000&offset=1000` (with enough rows in
the store) emits a next link carrying `offset=2000`, yet the handler's own
offset validation rejects 2000; following the emitted link fails with the
`invalid page offset` error, so emitted links are not always valid
requests. -/
theorem userUploadsGet_next_link_escapes_validation :
    Except.map (fun r => r.Next_link) (userUploadsGet demoDateToISO storeLarge reqPage2) =
      .ok (some (linkHeader "/user/uploads" 1000 2000)) ∧
    validateOffset (some "2000") = .error ⟨"invalid page offset", 400⟩ ∧
    userUploadsGet demoDateToISO storeLarge reqPage3 =
      .error ⟨"invalid page offset", 400⟩ := by
  refine ⟨?_, rfl, rfl⟩
  have hq : validateParams demoDateToISO reqPage2 =
      .ok ⟨1000, 1000, none, none, "Date", "Desc"⟩ := rfl
  rw [userUploadsGet_ok_eq demoDateToISO storeLarge reqPage2 _ hq]
  simp only [Except.map, buildResponse_Next_link, storeLarge, List.length_replicate]
  norm_num
  rfl

/-- C9: two accepted requests that differ only in their `before`, `after`,
`sortBy` and `sortOrder` parameters produce identical pagination links
whenever their store answers agree in row count and page length — the
filter and sort parameters are dropped from the emitted links. -/
theorem userUploadsGet_links_drop_filters (jsD jsD2 : String → Option String)
    (f g : ListUploadsQuery → ListUploadsResult) (req : UploadsRequest)
    (b a sb so : Option String) (q q2 : ListUploadsQuery) (r r2 : UploadsResponse)
    (hq : validateParams jsD req = .ok q)
    (hq2 : validateParams jsD2
      { req with beforeParam := b, afterParam := a,
                 sortByParam := sb, sortOrderParam := so } = .ok q2)
    (hr : userUploadsGet jsD f req = .ok r)
    (hr2 : userUploadsGet jsD2 g
      { req with beforeParam := b, afterParam := a,
                 sortByParam := sb, sortOrderParam := so } = .ok r2)
    (hlen : (f q).uploads.length = (g q2).uploads.length)
    (hcount : (f q).count = (g q2).count) :
    r.Next_link = r2.Next_link ∧ r.Prev_link = r2.Prev_link := by
  have h1 := vp_ok_parts jsD req q hq
  have h2 := vp_ok_parts jsD2 _ q2 hq2
  have hszb : validateSize req.sizeParam = Except.ok q2.size := h2.1
  have hofb : validateOffset req.offsetParam = Except.ok q2.offset := h2.2.1
  have hsize : q.size = q2.size := by
    rw [h1.1] at hszb
    injection hszb
  have hoffset : q.offset = q2.offset := by
    rw [h1.2.1] at hofb
    injection hofb
  rw [userUploadsGet_ok_eq jsD f req q hq] at hr
  rw [userUploadsGet_ok_eq jsD2 g _ q2 hq2] at hr2
  injection hr with hr
  injection hr2 with hr2
  have hr2b : buildResponse req.pathname q2.size q2.offset (g q2) = r2 := hr2
  rw [← hr, ← hr2b]
  constructor
  · rw [buildResponse_Next_link, buildResponse_Next_link,
      ← hsize, ← hoffset, ← hlen, ← hcount]
  · rw [buildResponse_Prev_link, buildResponse_Prev_link, ← hsize, ← hoffset]

/-- The query `reqOffset10` extended with a `before` filter and a `sortBy`
validates to under `demoDateToISO`. -/
def queryOffset10b : ListUploadsQuery :=
  ⟨25, 10, some "2021-01-05T00:00:00.000Z", none, "Name", "Desc"⟩

/-- Witness for C9: adding `before=Jan 5 2021&sortBy=Name` to the
`offset=10` request leaves both pagination links unchanged. -/
theorem userUploadsGet_links_drop_filters_witness :
    ((buildResponse reqOffset10.pathname queryOffset10.size queryOffset10.offset
        (storeBasic queryOffset10)).Next_link =
      (buildResponse reqOffset10.pathname queryOffset10b.size queryOffset10b.offset
        (storeBasic queryOffset10b)).Next_link) ∧
    ((buildResponse reqOffset10.pathname queryOffset10.size queryOffset10.offset
        (storeBasic queryOffset10)).Prev_link =
      (buildResponse reqOffset10.pathname queryOffset10b.size queryOffset10b.offset
        (storeBasic queryOffset10b)).Prev_link) :=
  userUploadsGet_links_drop_filters demoDateToISO demoDateToISO storeBasic storeBasic
    reqOffset10 (some "Jan 5 2021") none (some "Name") none
    queryOffset10 queryOffset10b _ _ rfl rfl rfl rfl rfl rfl

/-- A request whose `size` and `offset` parameters are not pure integer
literals but begin with a valid integer prefix. -/
def reqPrefixed : UploadsRequest :=
  ⟨"/user/uploads", some "25abc", some "25.9", none, none, none, none⟩

/-- C10: `parseInt` keeps the longest integer prefix, so `size=25abc` and
`offset=25.9` pass validation and are accepted as 25. -/
theorem parseIntJS_loose_acceptance :
    parseIntJS "25abc" = some 25 ∧
    parseIntJS "25.9" = some 25 ∧
    validateSize (some "25abc") = .ok 25 ∧
    validateOffset (some "25.9") = .ok 25 ∧
    validateParams demoDateToISO reqPrefixed =
      .ok ⟨25, 25, none, none, "Date", "Desc"⟩ :=
  ⟨rfl, rfl, rfl, rfl, rfl⟩

end UserApi
